import Mathlib

/-!
Verification of the Zerynth MPU6050 driver (`mpu6050.py`).

The driver is a Python class speaking to the sensor over an I2C bus.  We embed
it shallowly: the bus is a register file (`Nat → Nat`, register address to byte
value) together with a trace of the transactions issued so far.  Each driver
method becomes a Lean function threading the bus state explicitly; a method
that can raise `ValueError` returns `Option PyErr × Bus`, where the bus in the
result is the bus state at the moment the method returned or raised.
Python floats are modelled as exact rationals (`ℚ`); the claims about
temperature explicitly allow for floating rounding, and the full-scale claims
are about which divisor is selected, not about rounding.
-/

namespace MPU6050

/-- The only exception type the driver raises (`raise ValueError`). -/
inductive PyErr
  | valueError
  deriving DecidableEq

/-- A dynamically typed Python value, as needed for `get_accel_fullscale` /
`get_gyro_fullscale`, which return either a string from their `values` list or
the integer `-1`. -/
inductive PyVal
  | int (i : Int)
  | str (s : String)
  deriving DecidableEq

/-- Python `==` on such values: numbers compare with numbers, strings with
strings, and an `int` never equals a `str`. -/
def pyEq : PyVal → PyVal → Bool
  | .int a, .int b => a == b
  | .str a, .str b => a == b
  | _, _ => false

/-- A bus transaction: `read reg n` models `write_read(reg, n=n)` (read `n`
consecutive registers starting at `reg`; the MPU6050 auto-increments the
register address), `write reg v` models `write_bytes(reg, v)`. -/
inductive Transaction
  | read (reg n : Nat)
  | write (reg value : Nat)
  deriving DecidableEq

/-- The simulated transport: a register file plus the recorded transactions. -/
structure Bus where
  regs : Nat → Nat
  trace : List Transaction

/-- `self.write_read(reg, n=n)`: return the `n` bytes at `reg, reg+1, …` and
record the transaction. -/
def write_read (b : Bus) (reg n : Nat) : List Nat × Bus :=
  ((List.range n).map (fun i => b.regs (reg + i)),
   { b with trace := b.trace ++ [.read reg n] })

/-- `self.write_bytes(reg, v)`: store `v` at `reg` and record the transaction. -/
def write_bytes (b : Bus) (reg v : Nat) : Bus :=
  { regs := fun r => if r = reg then v else b.regs r,
    trace := b.trace ++ [.write reg v] }

/-- The write transactions of a trace. -/
def writesOf (t : List Transaction) : List Transaction :=
  t.filter (fun x => match x with | .write _ _ => true | .read _ _ => false)

/-- Python `v & ~(1 << p)` for nonnegative `v`: `~(1 << p)` is the infinite
two's-complement mask with only bit `p` clear, so the conjunction clears bit
`p` of `v`, i.e. subtracts the bit `v` and `1 <<< p` share. -/
def clearBit (v p : Nat) : Nat := v - (v &&& (1 <<< p))

/-- Sequencing of two driver calls: a raised exception propagates, a normal
return feeds the bus into the next call. -/
def pyBind (r : Option PyErr × Bus) (f : Bus → Option PyErr × Bus) :
    Option PyErr × Bus :=
  match r with
  | (some e, b) => (some e, b)
  | (none, b) => f b

/-- Source `_tc(v, n_bit=16)`: `mask = 2**(n_bit - 1); return -(v & mask) + (v & ~mask)`.
Every caller uses the default `n_bit = 16`, so `mask = 2 ^ 15`.  The callers
only pass nonnegative `v`, for which Python's `v & ~mask` clears bit 15 of
`v`, i.e. equals `v - (v &&& mask)`. -/
def _tc (v : Nat) : Int :=
  let mask : Nat := 2 ^ 15;
  (-(((v &&& mask) : Nat) : Int)) + (((v - (v &&& mask)) : Nat) : Int)

def GRAVITIY_MS2 : ℚ := 9.80665

-- Scale modifiers (Python floats, modelled exactly)
def ACCEL_SENSITIVITY_2G : ℚ := 16384.0
def ACCEL_SENSITIVITY_4G : ℚ := 8192.0
def ACCEL_SENSITIVITY_8G : ℚ := 4096.0
def ACCEL_SENSITIVITY_16G : ℚ := 2048.0

def GYRO_SENSITIVITY_250DPS : ℚ := 131.0
def GYRO_SENSITIVITY_500DPS : ℚ := 65.5
def GYRO_SENSITIVITY_1000DPS : ℚ := 32.8
def GYRO_SENSITIVITY_2000DPS : ℚ := 16.4

-- MPU-6050 registers
def REG_WHO_AM_I : Nat := 0x75
def PWR_MGMT_1 : Nat := 0x6B
def ACCEL_CONFIG : Nat := 0x1C
def GYRO_CONFIG : Nat := 0x1B

def ACCEL_XOUT0 : Nat := 0x3B
def TEMP_OUT0 : Nat := 0x41
def TEMP_OUT1 : Nat := 0x42
def GYRO_XOUT0 : Nat := 0x43

def REG_CONFIG : Nat := 0x1A

-- Motion registers
def REG_INT_ENABLE : Nat := 0x38
def REG_INT_STATUS : Nat := 0x3A
def REG_MOT_DETECT_CTRL : Nat := 0x69
def REG_MOT_THRESHOLD : Nat := 0x1F
def REG_MOT_DURATION : Nat := 0x20
def REG_ZMOT_THRESHOLD : Nat := 0x21
def REG_ZMOT_DURATION : Nat := 0x22

-- Motion values
def DELAY : Nat := 3
def THRESHOLD : Int := 2
def DURATION : Int := 5
def ZTHRESHOLD : Int := 4
def ZDURATION : Int := 2
def FF_EN : Bool := false
def MOT_EN : Bool := false
def ZMOT_EN : Bool := false

/-- The class attribute `accel_fullscale`, a dict from decimal strings to
full-scale register codes. -/
def accel_fullscale : List (String × Nat) :=
  [("2", 0), ("4", 1), ("8", 2), ("16", 3)]

/-- The class attribute `accel_sensitivity`. -/
def accel_sensitivity : List ℚ :=
  [ACCEL_SENSITIVITY_2G, ACCEL_SENSITIVITY_4G,
   ACCEL_SENSITIVITY_8G, ACCEL_SENSITIVITY_16G]

/-- The class attribute `gyro_fullscale`. -/
def gyro_fullscale : List (String × Nat) :=
  [("250", 0), ("500", 1), ("1000", 2), ("2000", 3)]

/-- The class attribute `gyro_sensitivity`. -/
def gyro_sensitivity : List ℚ :=
  [GYRO_SENSITIVITY_250DPS, GYRO_SENSITIVITY_500DPS,
   GYRO_SENSITIVITY_1000DPS, GYRO_SENSITIVITY_2000DPS]

/-- Python `d[k]` on the dicts above.  Every lookup the driver performs uses a
key that is present, so the default is never reached. -/
def dictGet (d : List (String × Nat)) (k : String) : Nat :=
  (d.lookup k).getD 0

/-- Method `set_sleep_mode(state)`: read `PWR_MGMT_1`, set or clear bit 6,
write it back.  The `state` validation (`state != True and state != False`)
cannot fire for a `Bool` argument. -/
def set_sleep_mode (b : Bus) (state : Bool) : Option PyErr × Bus :=
  let (data, b) := write_read b PWR_MGMT_1 1
  let value := data.headD 0
  let value := if state then value ||| (1 <<< 6) else clearBit value 6
  (none, write_bytes b PWR_MGMT_1 value)

/-- Method `set_dlpf_mode(dlpf)`: validate `dlpf ∈ [0..7]`, then read
`REG_CONFIG`, replace its low three bits with `dlpf`, write it back. -/
def set_dlpf_mode (b : Bus) (dlpf : Nat) : Option PyErr × Bus :=
  if dlpf ∉ [0, 1, 2, 3, 4, 5, 6, 7] then (some .valueError, b)
  else
    let (data, b) := write_read b REG_CONFIG 1
    let value := data.headD 0
    let value := value &&& 0b11111000
    let value := value ||| dlpf
    (none, write_bytes b REG_CONFIG value)

/-- Method `set_dhpf_mode(dhpf)`: validate `dhpf ∈ {0,1,2,3,4,7}`, then read
`ACCEL_CONFIG`, replace its low three bits with `dhpf`, write it back. -/
def set_dhpf_mode (b : Bus) (dhpf : Nat) : Option PyErr × Bus :=
  if dhpf ∉ [0, 1, 2, 3, 4, 7] then (some .valueError, b)
  else
    let (data, b) := write_read b ACCEL_CONFIG 1
    let value := data.headD 0
    let value := value &&& 0b11111000
    let value := value ||| dhpf
    (none, write_bytes b ACCEL_CONFIG value)

/-- Method `set_clock_source(clksel)`. -/
def set_clock_source (b : Bus) (clksel : Nat) : Option PyErr × Bus :=
  if clksel ∉ [0, 1, 2, 3, 4, 5, 7] then (some .valueError, b)
  else
    let (data, b) := write_read b PWR_MGMT_1 1
    let value := data.headD 0
    let value := value &&& 0b11111000
    let value := value ||| clksel
    (none, write_bytes b PWR_MGMT_1 value)

/-- Method `get_temp()`: read the two temperature bytes, decode them as
two's complement, apply `raw/340 + 36.53`. -/
def get_temp (b : Bus) : ℚ × Bus :=
  let (data, b) := write_read b TEMP_OUT0 2
  let raw_temp := _tc (data.getD 0 0 <<< 8 ||| data.getD 1 0)
  ((raw_temp : ℚ) / 340 + 36.53, b)

/-- Method `set_accel_fullscale(full_scale)`: validate, write `0x00` to
`ACCEL_CONFIG`, then read it back and install the full-scale code in bits
3–4. -/
def set_accel_fullscale (b : Bus) (full_scale : Nat) : Option PyErr × Bus :=
  if full_scale ∉ [2, 4, 8, 16] then (some .valueError, b)
  else
    let b := write_bytes b ACCEL_CONFIG 0x00
    let code := dictGet accel_fullscale (toString full_scale)
    let (data, b) := write_read b ACCEL_CONFIG 1
    let value := data.headD 0
    let value := value &&& 0b11100111
    let value := value ||| (code <<< 3)
    (none, write_bytes b ACCEL_CONFIG value)

/-- Method `get_accel_fullscale()`: read `ACCEL_CONFIG`, extract bits 3–4,
and scan the list `values = ['2','4','8','16']` for the first entry whose
dict code equals the extracted code; return that string, or `-1` when none
matches. -/
def get_accel_fullscale (b : Bus) : PyVal × Bus :=
  let (data, b) := write_read b ACCEL_CONFIG 1
  let raw_data := data.headD 0
  let raw_data := raw_data &&& 0b00011000
  let raw_data := raw_data >>> 3
  match ["2", "4", "8", "16"].find? (fun s => raw_data == dictGet accel_fullscale s) with
  | some s => (.str s, b)
  | none => (.int (-1), b)

/-- Method `get_accel_values(g=False)`: read six bytes from `ACCEL_XOUT0`,
decode the three axes as two's complement, then compare the result of
`get_accel_fullscale()` against the dict codes to pick a sensitivity
(defaulting to the ±2g one), divide, and multiply by gravity when `g` is
false.  The `g` validation cannot fire for a `Bool` argument. -/
def get_accel_values (b : Bus) (g : Bool) : (ℚ × ℚ × ℚ) × Bus :=
  let (data, b) := write_read b ACCEL_XOUT0 6
  let x := _tc (data.getD 0 0 <<< 8 ||| data.getD 1 0)
  let y := _tc (data.getD 2 0 <<< 8 ||| data.getD 3 0)
  let z := _tc (data.getD 4 0 <<< 8 ||| data.getD 5 0)
  let (full_scale, b) := get_accel_fullscale b
  let accelSens := (List.range 4).foldl
    (fun s i =>
      if pyEq full_scale (.int (dictGet accel_fullscale (["2", "4", "8", "16"].getD i "")))
      then accel_sensitivity.getD i s else s)
    ACCEL_SENSITIVITY_2G
  let x := (x : ℚ) / accelSens
  let y := (y : ℚ) / accelSens
  let z := (z : ℚ) / accelSens
  if g then ((x, y, z), b)
  else ((x * GRAVITIY_MS2, y * GRAVITIY_MS2, z * GRAVITIY_MS2), b)

/-- Method `set_gyro_fullscale(full_scale)`: same structure as the
accelerometer setter, over `GYRO_CONFIG`. -/
def set_gyro_fullscale (b : Bus) (full_scale : Nat) : Option PyErr × Bus :=
  if full_scale ∉ [250, 500, 1000, 2000] then (some .valueError, b)
  else
    let b := write_bytes b GYRO_CONFIG 0x00
    let code := dictGet gyro_fullscale (toString full_scale)
    let (data, b) := write_read b GYRO_CONFIG 1
    let value := data.headD 0
    let value := value &&& 0b11100111
    let value := value ||| (code <<< 3)
    (none, write_bytes b GYRO_CONFIG value)

/-- Method `get_gyro_fullscale()`: same structure as the accelerometer
getter, over `GYRO_CONFIG` and `values = ['250','500','1000','2000']`. -/
def get_gyro_fullscale (b : Bus) : PyVal × Bus :=
  let (data, b) := write_read b GYRO_CONFIG 1
  let raw_data := data.headD 0
  let raw_data := raw_data &&& 0b00011000
  let raw_data := raw_data >>> 3
  match ["250", "500", "1000", "2000"].find? (fun s => raw_data == dictGet gyro_fullscale s) with
  | some s => (.str s, b)
  | none => (.int (-1), b)

/-- Method `get_gyro_values()`: same structure as `get_accel_values`, always
in °/s (no unit flag, no gravity factor). -/
def get_gyro_values (b : Bus) : (ℚ × ℚ × ℚ) × Bus :=
  let (data, b) := write_read b GYRO_XOUT0 6
  let x := _tc (data.getD 0 0 <<< 8 ||| data.getD 1 0)
  let y := _tc (data.getD 2 0 <<< 8 ||| data.getD 3 0)
  let z := _tc (data.getD 4 0 <<< 8 ||| data.getD 5 0)
  let (full_scale, b) := get_gyro_fullscale b
  let gyroSens := (List.range 4).foldl
    (fun s i =>
      if pyEq full_scale (.int (dictGet gyro_fullscale (["250", "500", "1000", "2000"].getD i "")))
      then gyro_sensitivity.getD i s else s)
    GYRO_SENSITIVITY_250DPS
  let x := (x : ℚ) / gyroSens
  let y := (y : ℚ) / gyroSens
  let z := (z : ℚ) / gyroSens
  ((x, y, z), b)

/-- Method `write_register_bit(reg, pos, state)`: read `reg`, set or clear
bit `pos`, write it back.  The `pos < 0` validation cannot fire for a `Nat`
argument, nor the boolean check for a `Bool`. -/
def write_register_bit (b : Bus) (reg pos : Nat) (state : Bool) : Option PyErr × Bus :=
  let (data, b) := write_read b reg 1
  let value := data.headD 0
  let value := if state then value ||| (1 <<< pos) else clearBit value pos
  (none, write_bytes b reg value)

/-- Method `set_accel_power_on_delay(delay)`: validate `delay ∈ [0..3]`
(`delay < 0` cannot fire for a `Nat`), then read `REG_MOT_DETECT_CTRL`,
install `delay` in bits 4–5, write it back. -/
def set_accel_power_on_delay (b : Bus) (delay : Nat) : Option PyErr × Bus :=
  if delay > 3 then (some .valueError, b)
  else
    let (data, b) := write_read b REG_MOT_DETECT_CTRL 1
    let value := data.headD 0
    let value := value &&& 0b11001111
    let value := value ||| (delay <<< 4)
    (none, write_bytes b REG_MOT_DETECT_CTRL value)

/-- Method `set_free_fall(state)`: bit 7 of `INT_ENABLE`. -/
def set_free_fall (b : Bus) (state : Bool) : Option PyErr × Bus :=
  write_register_bit b REG_INT_ENABLE 7 state

/-- Method `set_zero_motion(state)`: bit 5 of `INT_ENABLE`. -/
def set_zero_motion (b : Bus) (state : Bool) : Option PyErr × Bus :=
  write_register_bit b REG_INT_ENABLE 5 state

/-- Method `set_motion(state)`: bit 6 of `INT_ENABLE`. -/
def set_motion (b : Bus) (state : Bool) : Option PyErr × Bus :=
  write_register_bit b REG_INT_ENABLE 6 state

/-- Method `set_motion_detection_threshold(threshold)`: reject a negative
threshold, otherwise write it to `REG_MOT_THRESHOLD`. -/
def set_motion_detection_threshold (b : Bus) (threshold : Int) : Option PyErr × Bus :=
  if threshold < 0 then (some .valueError, b)
  else (none, write_bytes b REG_MOT_THRESHOLD threshold.toNat)

/-- Method `set_motion_detection_duration(duration)`. -/
def set_motion_detection_duration (b : Bus) (duration : Int) : Option PyErr × Bus :=
  if duration < 0 then (some .valueError, b)
  else (none, write_bytes b REG_MOT_DURATION duration.toNat)

/-- Method `set_zero_motion_detection_threshold(threshold)`. -/
def set_zero_motion_detection_threshold (b : Bus) (threshold : Int) : Option PyErr × Bus :=
  if threshold < 0 then (some .valueError, b)
  else (none, write_bytes b REG_ZMOT_THRESHOLD threshold.toNat)

/-- Method `set_zero_motion_detection_duration(duration)`. -/
def set_zero_motion_detection_duration (b : Bus) (duration : Int) : Option PyErr × Bus :=
  if duration < 0 then (some .valueError, b)
  else (none, write_bytes b REG_ZMOT_DURATION duration.toNat)

/-- Method `setup_motion()`, with the exact call sequence and arguments of
the source.  Note the last two calls: the source passes `ZDURATION` to the
zero-motion *threshold* setter and `ZTHRESHOLD` to the zero-motion
*duration* setter. -/
def setup_motion (b : Bus) : Option PyErr × Bus :=
  pyBind (set_accel_power_on_delay b DELAY) fun b =>
  pyBind (set_free_fall b FF_EN) fun b =>
  pyBind (set_zero_motion b ZMOT_EN) fun b =>
  pyBind (set_motion b MOT_EN) fun b =>
  pyBind (set_dhpf_mode b 1) fun b =>
  pyBind (set_motion_detection_threshold b THRESHOLD) fun b =>
  pyBind (set_motion_detection_duration b DURATION) fun b =>
  pyBind (set_zero_motion_detection_threshold b ZDURATION) fun b =>
  set_zero_motion_detection_duration b ZTHRESHOLD

/-- The constructor `MPU6050.__init__(drvname, addr=0x68, clk=400000)`:
reject an address other than `0x68`/`0x69` before touching the bus, read the
identity register and reject a byte other than `0x68`, then run the five
setup calls.  `drvname` and `clk` do not influence the modelled behaviour;
`self.start()` issues no register transaction. -/
def MPU6050_init (addr : Nat) (b : Bus) : Option PyErr × Bus :=
  if addr ≠ 0x68 ∧ addr ≠ 0x69 then (some .valueError, b)
  else
    let (data, b) := write_read b REG_WHO_AM_I 1
    if data.headD 0 ≠ 0x68 then (some .valueError, b)
    else
      pyBind (set_clock_source b 1) fun b =>
      pyBind (set_accel_fullscale b 2) fun b =>
      pyBind (set_gyro_fullscale b 2000) fun b =>
      pyBind (set_dlpf_mode b 0) fun b =>
      set_sleep_mode b false

/-- A fresh simulated transport: every register reads as `0`, no transactions
recorded yet. -/
def bus0 : Bus := ⟨fun _ => 0, []⟩

/-- A simulated transport whose identity register returns the expected `0x68`. -/
def busWho : Bus := ⟨fun r => if r = REG_WHO_AM_I then 0x68 else 0, []⟩

/-- A simulated transport programmed to ±4g (`ACCEL_CONFIG = 0x08`) and
±2000°/s (`GYRO_CONFIG = 0x18`), returning accelerometer raw X = 8192
(bytes `0x20 0x00`) and gyroscope raw X = 131 (bytes `0x00 0x83`). -/
def busC1 : Bus :=
  ⟨fun r =>
    if r = ACCEL_CONFIG then 0x08
    else if r = GYRO_CONFIG then 0x18
    else if r = ACCEL_XOUT0 then 0x20
    else if r = GYRO_XOUT0 + 1 then 0x83
    else 0, []⟩

/-- A simulated transport whose temperature registers hold raw value 340
(big-endian bytes `0x01 0x54`). -/
def busT340 : Bus :=
  ⟨fun r => if r = TEMP_OUT0 then 0x01 else if r = TEMP_OUT1 then 0x54 else 0, []⟩

/-- Joining two bytes big-endian is plain arithmetic: the two bit patterns
are disjoint, so the bitwise or is an addition. -/
theorem lor_byte_eq_add (hi lo : Nat) (h : lo < 256) :
    hi <<< 8 ||| lo = 256 * hi + lo := by
  apply Nat.eq_of_testBit_eq
  intro i
  rw [Nat.testBit_lor, Nat.testBit_shiftLeft]
  have h2 : lo < 2 ^ 8 := by omega
  have h256 : (256 : Nat) = 2 ^ 8 := by norm_num
  rw [h256, Nat.testBit_mul_pow_two_add hi h2]
  rcases lt_or_ge i 8 with h8 | h8
  · simp [h8, Nat.not_le.mpr h8]
  · have hf : lo.testBit i = false :=
      Nat.testBit_eq_false_of_lt (lt_of_lt_of_le h2 (Nat.pow_le_pow_right (by norm_num) h8))
    simp [h8, hf, if_neg (Nat.not_lt.mpr h8)]

/-- Bit 15 of a 16-bit value, via the sign mask used by `_tc`. -/
theorem and_two_pow15 (v : Nat) (h : v < 65536) :
    v &&& 32768 = if v < 32768 then 0 else 32768 := by
  have h1 := Nat.and_two_pow v 15
  have h2 : v.testBit 15 = decide (v / 2 ^ 15 % 2 = 1) := Nat.testBit_to_div_mod
  norm_num at h1 h2
  by_cases hv : v < 32768
  · have hd : v / 32768 = 0 := Nat.div_eq_of_lt hv
    rw [h2, hd] at h1
    norm_num at h1
    simp [h1, hv]
  · have hd : v / 32768 = 1 := by omega
    rw [h2, hd] at h1
    norm_num at h1
    simp [h1, hv]

/-- `_tc` on a 16-bit input is the usual two's-complement reinterpretation. -/
theorem _tc_spec (v : Nat) (h : v < 65536) :
    _tc v = if v < 32768 then (v : Int) else (v : Int) - 65536 := by
  unfold _tc
  have hand := and_two_pow15 v h
  norm_num at hand ⊢
  by_cases hv : v < 32768
  · rw [if_pos hv] at hand
    rw [hand, if_pos hv]
    push_cast
    omega
  · rw [if_neg hv] at hand
    rw [hand, if_neg hv]
    have hle : 32768 ≤ v := by omega
    push_cast [Nat.cast_sub hle]
    omega

/-- The code extracted from bits 3–4 of any byte is at most 3. -/
theorem extracted_code_le_three (x : Nat) : (x &&& 0b00011000) >>> 3 ≤ 3 := by
  rw [Nat.shiftRight_eq_div_pow]
  have := Nat.and_le_right (n := x) (m := 0b00011000)
  omega

/-- Every extractable accelerometer code matches an entry of the `values`
list scanned by `get_accel_fullscale`. -/
theorem accel_code_find (x : Nat) :
    ∃ s, s ∈ ["2", "4", "8", "16"] ∧
      ["2", "4", "8", "16"].find?
        (fun s => ((x &&& 0b00011000) >>> 3) == dictGet accel_fullscale s) = some s := by
  have h := extracted_code_le_three x
  generalize (x &&& 0b00011000) >>> 3 = r at h ⊢
  interval_cases r <;> decide

/-- Every extractable gyroscope code matches an entry of the `values` list
scanned by `get_gyro_fullscale`. -/
theorem gyro_code_find (x : Nat) :
    ∃ s, s ∈ ["250", "500", "1000", "2000"] ∧
      ["250", "500", "1000", "2000"].find?
        (fun s => ((x &&& 0b00011000) >>> 3) == dictGet gyro_fullscale s) = some s := by
  have h := extracted_code_le_three x
  generalize (x &&& 0b00011000) >>> 3 = r at h ⊢
  interval_cases r <;> decide

/-- `get_accel_fullscale` always returns one of the four range strings. -/
theorem accel_readback_str (b : Bus) :
    ∃ s, s ∈ ["2", "4", "8", "16"] ∧ (get_accel_fullscale b).1 = PyVal.str s := by
  obtain ⟨s, hs, hfind⟩ := accel_code_find (b.regs ACCEL_CONFIG)
  have hr : List.range 1 = [0] := rfl
  exact ⟨s, hs, by simp [get_accel_fullscale, write_read, hr, hfind]⟩

/-- `get_gyro_fullscale` always returns one of the four range strings. -/
theorem gyro_readback_str (b : Bus) :
    ∃ s, s ∈ ["250", "500", "1000", "2000"] ∧ (get_gyro_fullscale b).1 = PyVal.str s := by
  obtain ⟨s, hs, hfind⟩ := gyro_code_find (b.regs GYRO_CONFIG)
  have hr : List.range 1 = [0] := rfl
  exact ⟨s, hs, by simp [get_gyro_fullscale, write_read, hr, hfind]⟩

/-- Register effect of a valid `set_accel_fullscale` call: because the
method first zeroes `ACCEL_CONFIG` and then reads it back, the final
register value is exactly the full-scale code shifted into bits 3–4,
whatever the register held before. -/
theorem set_accel_fullscale_regs (b : Bus) (v : Nat) (hv : v ∈ [2, 4, 8, 16]) (r : Nat) :
    ((set_accel_fullscale b v).2).regs r =
      if r = ACCEL_CONFIG then (dictGet accel_fullscale (toString v)) <<< 3 else b.regs r := by
  have hr1 : List.range 1 = [0] := rfl
  fin_cases hv <;>
    by_cases hr : r = ACCEL_CONFIG <;>
      simp [set_accel_fullscale, write_bytes, write_read, dictGet, accel_fullscale, hr, hr1]

/-- Register effect of a valid `set_gyro_fullscale` call. -/
theorem set_gyro_fullscale_regs (b : Bus) (v : Nat) (hv : v ∈ [250, 500, 1000, 2000]) (r : Nat) :
    ((set_gyro_fullscale b v).2).regs r =
      if r = GYRO_CONFIG then (dictGet gyro_fullscale (toString v)) <<< 3 else b.regs r := by
  have hr1 : List.range 1 = [0] := rfl
  fin_cases hv <;>
    by_cases hr : r = GYRO_CONFIG <;>
      simp [set_gyro_fullscale, write_bytes, write_read, dictGet, gyro_fullscale, hr, hr1]

/-- An `int` is never `==` a `str` in Python. -/
theorem pyEq_str_int (s : String) (i : Int) : pyEq (PyVal.str s) (PyVal.int i) = false := rfl

/-- The value `get_accel_fullscale` returns, as a pure function of the
`ACCEL_CONFIG` register. -/
theorem get_accel_fullscale_fst (b : Bus) :
    (get_accel_fullscale b).1 =
      (match ["2", "4", "8", "16"].find?
          (fun s => ((b.regs ACCEL_CONFIG &&& 0b00011000) >>> 3) == dictGet accel_fullscale s) with
       | some s => PyVal.str s
       | none => PyVal.int (-1)) := by
  have hr : List.range 1 = [0] := rfl
  rcases hf : ["2", "4", "8", "16"].find?
      (fun s => ((b.regs ACCEL_CONFIG &&& 0b00011000) >>> 3) == dictGet accel_fullscale s) with _ | s <;>
    simp [get_accel_fullscale, write_read, hr, hf]

/-- The value `get_gyro_fullscale` returns, as a pure function of the
`GYRO_CONFIG` register. -/
theorem get_gyro_fullscale_fst (b : Bus) :
    (get_gyro_fullscale b).1 =
      (match ["250", "500", "1000", "2000"].find?
          (fun s => ((b.regs GYRO_CONFIG &&& 0b00011000) >>> 3) == dictGet gyro_fullscale s) with
       | some s => PyVal.str s
       | none => PyVal.int (-1)) := by
  have hr : List.range 1 = [0] := rfl
  rcases hf : ["250", "500", "1000", "2000"].find?
      (fun s => ((b.regs GYRO_CONFIG &&& 0b00011000) >>> 3) == dictGet gyro_fullscale s) with _ | s <;>
    simp [get_gyro_fullscale, write_read, hr, hf]

/-- `get_accel_fullscale` in full: it returns one of the four range strings,
and the bus with the single read recorded. -/
theorem get_accel_fullscale_eq (b : Bus) :
    ∃ s, s ∈ ["2", "4", "8", "16"] ∧
      get_accel_fullscale b =
        (PyVal.str s, { regs := b.regs, trace := b.trace ++ [Transaction.read ACCEL_CONFIG 1] }) := by
  obtain ⟨s, hs, hfind⟩ := accel_code_find (b.regs ACCEL_CONFIG)
  have hr : List.range 1 = [0] := rfl
  exact ⟨s, hs, by simp [get_accel_fullscale, write_read, hr, hfind]⟩

/-- `get_gyro_fullscale` in full. -/
theorem get_gyro_fullscale_eq (b : Bus) :
    ∃ s, s ∈ ["250", "500", "1000", "2000"] ∧
      get_gyro_fullscale b =
        (PyVal.str s, { regs := b.regs, trace := b.trace ++ [Transaction.read GYRO_CONFIG 1] }) := by
  obtain ⟨s, hs, hfind⟩ := gyro_code_find (b.regs GYRO_CONFIG)
  have hr : List.range 1 = [0] := rfl
  exact ⟨s, hs, by simp [get_gyro_fullscale, write_read, hr, hfind]⟩

/-- The sensitivity-selection loop of `get_accel_values` never fires when the
readback is a string, so the default ±2g divisor survives. -/
theorem accel_fold_default (s : String) :
    (List.range 4).foldl
      (fun q i =>
        if pyEq (PyVal.str s) (.int (dictGet accel_fullscale (["2", "4", "8", "16"].getD i "")))
        then accel_sensitivity.getD i q else q)
      ACCEL_SENSITIVITY_2G = ACCEL_SENSITIVITY_2G := by
  have h4 : List.range 4 = [0, 1, 2, 3] := rfl
  simp [h4, pyEq_str_int]

/-- The sensitivity-selection loop of `get_gyro_values` never fires when the
readback is a string, so the default ±250°/s divisor survives. -/
theorem gyro_fold_default (s : String) :
    (List.range 4).foldl
      (fun q i =>
        if pyEq (PyVal.str s) (.int (dictGet gyro_fullscale (["250", "500", "1000", "2000"].getD i "")))
        then gyro_sensitivity.getD i q else q)
      GYRO_SENSITIVITY_250DPS = GYRO_SENSITIVITY_250DPS := by
  have h4 : List.range 4 = [0, 1, 2, 3] := rfl
  simp [h4, pyEq_str_int]

/-- C1: the claim fails on the code.  `get_accel_fullscale` returns a string
(or `-1`), which the selection loop compares against the integer dict codes;
the comparison never succeeds, so `get_accel_values` always divides by the
default ±2g divisor 16384 and `get_gyro_values` by 131, whatever full scale
is programmed.  At ±4g (`ACCEL_CONFIG = 0x08`) with raw X = 8192 the code
yields 0.5 g where the claim requires 8192/8192 = 1 g, and at ±2000°/s with
raw X = 131 it yields 1 °/s where the claim requires 131/16.4 °/s. -/
theorem c1_default_divisor_always_used :
    (∀ b : Bus,
      ((get_accel_values b true).1).1 =
        ((_tc (b.regs ACCEL_XOUT0 <<< 8 ||| b.regs (ACCEL_XOUT0 + 1)) : Int) : ℚ) / ACCEL_SENSITIVITY_2G)
    ∧ (∀ b : Bus,
      ((get_gyro_values b).1).1 =
        ((_tc (b.regs GYRO_XOUT0 <<< 8 ||| b.regs (GYRO_XOUT0 + 1)) : Int) : ℚ) / GYRO_SENSITIVITY_250DPS)
    ∧ ((get_accel_values busC1 true).1).1 = 1 / 2
    ∧ ((get_accel_values busC1 true).1).1 ≠ (8192 : ℚ) / ACCEL_SENSITIVITY_4G
    ∧ ((get_gyro_values busC1).1).1 = 1
    ∧ ((get_gyro_values busC1).1).1 ≠ (131 : ℚ) / GYRO_SENSITIVITY_2000DPS := by
  have haccel : ∀ b : Bus,
      ((get_accel_values b true).1).1 =
        ((_tc (b.regs ACCEL_XOUT0 <<< 8 ||| b.regs (ACCEL_XOUT0 + 1)) : Int) : ℚ) / ACCEL_SENSITIVITY_2G := by
    intro b
    obtain ⟨s, hs, heq⟩ := get_accel_fullscale_eq (write_read b ACCEL_XOUT0 6).2
    simp only [get_accel_values, heq, accel_fold_default]
    rfl
  have hgyro : ∀ b : Bus,
      ((get_gyro_values b).1).1 =
        ((_tc (b.regs GYRO_XOUT0 <<< 8 ||| b.regs (GYRO_XOUT0 + 1)) : Int) : ℚ) / GYRO_SENSITIVITY_250DPS := by
    intro b
    obtain ⟨s, hs, heq⟩ := get_gyro_fullscale_eq (write_read b GYRO_XOUT0 6).2
    simp only [get_gyro_values, heq, gyro_fold_default]
    rfl
  have ha : ((get_accel_values busC1 true).1).1 = ((8192 : Int) : ℚ) / ACCEL_SENSITIVITY_2G := rfl
  have hg : ((get_gyro_values busC1).1).1 = ((131 : Int) : ℚ) / GYRO_SENSITIVITY_250DPS := rfl
  refine ⟨haccel, hgyro, ?_, ?_, ?_, ?_⟩
  · rw [ha, ACCEL_SENSITIVITY_2G]; norm_num
  · rw [ha]; norm_num [ACCEL_SENSITIVITY_2G, ACCEL_SENSITIVITY_4G]
  · rw [hg, GYRO_SENSITIVITY_250DPS]; norm_num
  · rw [hg]; norm_num [GYRO_SENSITIVITY_250DPS, GYRO_SENSITIVITY_2000DPS]

/-- C2: `setup_motion` on a fresh transport programs accel power-on delay 3
(bits 4–5 of `MOT_DETECT_CTRL`), leaves all interrupt enables clear, sets
DHPF mode 1, motion threshold 2 and motion duration 5 as the claim states —
but it writes 2 to the zero-motion threshold register and 4 to the
zero-motion duration register: the last two `setup_motion` calls pass
`ZDURATION` and `ZTHRESHOLD` swapped, contradicting the constants'
declarations (`ZTHRESHOLD = 4`, `ZDURATION = 2`) and the claim. -/
theorem c2_setup_motion_swaps_zero_motion_registers :
    (setup_motion bus0).1 = none
    ∧ (setup_motion bus0).2.regs REG_MOT_DETECT_CTRL = 3 <<< 4
    ∧ (setup_motion bus0).2.regs REG_INT_ENABLE = 0
    ∧ (setup_motion bus0).2.regs ACCEL_CONFIG = 1
    ∧ (setup_motion bus0).2.regs REG_MOT_THRESHOLD = 2
    ∧ (setup_motion bus0).2.regs REG_MOT_DURATION = 5
    ∧ (setup_motion bus0).2.regs REG_ZMOT_THRESHOLD = 2
    ∧ (setup_motion bus0).2.regs REG_ZMOT_DURATION = 4 := by decide

/-- C3, counterexample: after `set_accel_fullscale(4)`, the getter returns
the Python string `'4'`, which is not `==` the integer 4, so
`get_accel_fullscale() == v` is false as stated. -/
theorem c3_counterexample_string_vs_int :
    pyEq (get_accel_fullscale ((set_accel_fullscale bus0 4).2)).1 (PyVal.int 4) = false
    ∧ (get_accel_fullscale ((set_accel_fullscale bus0 4).2)).1 ≠ PyVal.int 4 := by decide

/-- C3, amended: for every valid full scale `v` and every prior register
state, setting the full scale and reading it back yields the decimal string
representation of `v` (`str(v)`), not the integer `v` itself. -/
theorem c3_roundtrip_decimal_string (b b' : Bus) (v w : Nat)
    (hv : v ∈ [2, 4, 8, 16]) (hw : w ∈ [250, 500, 1000, 2000]) :
    (get_accel_fullscale ((set_accel_fullscale b v).2)).1 = PyVal.str (toString v)
    ∧ (get_gyro_fullscale ((set_gyro_fullscale b' w).2)).1 = PyVal.str (toString w) := by
  constructor
  · fin_cases hv <;>
    · rw [get_accel_fullscale_fst, set_accel_fullscale_regs b _ (by decide) ACCEL_CONFIG]
      simp only [if_pos]
      decide
  · fin_cases hw <;>
    · rw [get_gyro_fullscale_fst, set_gyro_fullscale_regs b' _ (by decide) GYRO_CONFIG]
      simp only [if_pos]
      decide

/-- C3, witness for the amended round trip at `v = 4`, `w = 500`. -/
theorem c3_roundtrip_decimal_string_witness :
    (4 ∈ [2, 4, 8, 16]) ∧ (500 ∈ [250, 500, 1000, 2000]) ∧
    ((get_accel_fullscale ((set_accel_fullscale bus0 4).2)).1 = PyVal.str (toString 4)
     ∧ (get_gyro_fullscale ((set_gyro_fullscale bus0 500).2)).1 = PyVal.str (toString 500)) :=
  ⟨by decide, by decide, c3_roundtrip_decimal_string bus0 bus0 4 500 (by decide) (by decide)⟩

/-- C4: `_tc` on a big-endian byte pair is the two's-complement
reinterpretation of the 16-bit word: it maps `(0x7F, 0xFF)` to 32767,
`(0x80, 0x00)` to -32768 and `(0x00, 0x00)` to 0, and in general lands in
`[-32768, 32767]`. -/
theorem c4_tc_decodes_twos_complement (hi lo : Nat) (hhi : hi < 256) (hlo : lo < 256) :
    _tc (hi <<< 8 ||| lo) =
      (if hi <<< 8 ||| lo < 32768 then ((hi <<< 8 ||| lo : Nat) : Int)
       else ((hi <<< 8 ||| lo : Nat) : Int) - 65536)
    ∧ -32768 ≤ _tc (hi <<< 8 ||| lo)
    ∧ _tc (hi <<< 8 ||| lo) ≤ 32767
    ∧ _tc (0x7F <<< 8 ||| 0xFF) = 32767
    ∧ _tc (0x80 <<< 8 ||| 0x00) = -32768
    ∧ _tc (0x00 <<< 8 ||| 0x00) = 0 := by
  have hadd := lor_byte_eq_add hi lo hlo
  have hlt : hi <<< 8 ||| lo < 65536 := by rw [hadd]; omega
  have hspec := _tc_spec _ hlt
  refine ⟨hspec, ?_, ?_, by decide, by decide, by decide⟩ <;>
  · rw [hspec, hadd]
    have h2 : 256 * hi + lo < 65536 := by omega
    split_ifs <;> push_cast <;> omega

/-- C4, witness at the byte pair `(0x80, 0x00)`. -/
theorem c4_tc_decodes_twos_complement_witness :
    (0x80 < 256) ∧ (0x00 < 256) ∧
    (_tc (0x80 <<< 8 ||| 0x00) =
      (if (0x80 : Nat) <<< 8 ||| 0x00 < 32768 then ((0x80 <<< 8 ||| 0x00 : Nat) : Int)
       else ((0x80 <<< 8 ||| 0x00 : Nat) : Int) - 65536)
     ∧ -32768 ≤ _tc (0x80 <<< 8 ||| 0x00)
     ∧ _tc (0x80 <<< 8 ||| 0x00) ≤ 32767
     ∧ _tc (0x7F <<< 8 ||| 0xFF) = 32767
     ∧ _tc (0x80 <<< 8 ||| 0x00) = -32768
     ∧ _tc (0x00 <<< 8 ||| 0x00) = 0) :=
  ⟨by decide, by decide, c4_tc_decodes_twos_complement 0x80 0x00 (by decide) (by decide)⟩

/-- C5: `get_temp` reads the two bytes at the temperature register pair,
decodes them as two's complement, and returns `raw/340 + 36.53`; raw 0
yields 36.53 °C and raw 340 yields 37.53 °C. -/
theorem c5_get_temp_formula (b : Bus) :
    (get_temp b).1 =
      ((_tc (b.regs TEMP_OUT0 <<< 8 ||| b.regs TEMP_OUT1) : Int) : ℚ) / 340 + 36.53
    ∧ (get_temp b).2.trace = b.trace ++ [Transaction.read TEMP_OUT0 2]
    ∧ (get_temp bus0).1 = 3653 / 100
    ∧ (get_temp busT340).1 = 3753 / 100 := by
  refine ⟨rfl, rfl, ?_, ?_⟩
  · have h : (get_temp bus0).1 = ((0 : Int) : ℚ) / 340 + 36.53 := rfl
    rw [h]; norm_num
  · have h : (get_temp busT340).1 = ((340 : Int) : ℚ) / 340 + 36.53 := rfl
    rw [h]; norm_num

/-- C6: each setter rejects every out-of-domain argument (DLPF mode outside
0–7, accelerometer full scale outside {2,4,8,16}, negative motion threshold)
with `ValueError` before issuing any bus transaction: the bus comes back
untouched, trace included. -/
theorem c6_invalid_arguments_issue_no_transactions (b : Bus) (dlpf fs : Nat) (t : Int)
    (hd : dlpf ∉ [0, 1, 2, 3, 4, 5, 6, 7]) (hf : fs ∉ [2, 4, 8, 16]) (ht : t < 0) :
    set_dlpf_mode b dlpf = (some PyErr.valueError, b)
    ∧ set_accel_fullscale b fs = (some PyErr.valueError, b)
    ∧ set_motion_detection_threshold b t = (some PyErr.valueError, b)
    ∧ (set_dlpf_mode b dlpf).2.trace = b.trace
    ∧ (set_accel_fullscale b fs).2.trace = b.trace
    ∧ (set_motion_detection_threshold b t).2.trace = b.trace := by
  have h1 : set_dlpf_mode b dlpf = (some PyErr.valueError, b) := by
    rw [set_dlpf_mode, if_pos hd]
  have h2 : set_accel_fullscale b fs = (some PyErr.valueError, b) := by
    rw [set_accel_fullscale, if_pos hf]
  have h3 : set_motion_detection_threshold b t = (some PyErr.valueError, b) := by
    rw [set_motion_detection_threshold, if_pos ht]
  exact ⟨h1, h2, h3, by rw [h1], by rw [h2], by rw [h3]⟩

/-- C6, witness at the claim's own examples: DLPF mode 8, accelerometer
full scale 3, motion threshold -1, on a fresh transport. -/
theorem c6_invalid_arguments_issue_no_transactions_witness :
    ((8 : Nat) ∉ [0, 1, 2, 3, 4, 5, 6, 7]) ∧ ((3 : Nat) ∉ [2, 4, 8, 16]) ∧ ((-1 : Int) < 0)
    ∧ (set_dlpf_mode bus0 8 = (some PyErr.valueError, bus0)
       ∧ set_accel_fullscale bus0 3 = (some PyErr.valueError, bus0)
       ∧ set_motion_detection_threshold bus0 (-1) = (some PyErr.valueError, bus0)
       ∧ (set_dlpf_mode bus0 8).2.trace = bus0.trace
       ∧ (set_accel_fullscale bus0 3).2.trace = bus0.trace
       ∧ (set_motion_detection_threshold bus0 (-1)).2.trace = bus0.trace) :=
  ⟨by decide, by decide, by decide,
   c6_invalid_arguments_issue_no_transactions bus0 8 3 (-1) (by decide) (by decide) (by decide)⟩

/-- C7: construction against a transport whose identity register is not
`0x68` fails with `ValueError` after the single identity read and issues no
write; an address other than `0x68`/`0x69` fails before any transaction at
all. -/
theorem c7_init_rejects_wrong_identity_and_address (b : Bus) (addr addr2 : Nat)
    (hid : b.regs REG_WHO_AM_I ≠ 0x68)
    (haddr : addr = 0x68 ∨ addr = 0x69)
    (h2 : addr2 ≠ 0x68 ∧ addr2 ≠ 0x69) :
    (MPU6050_init addr b).1 = some PyErr.valueError
    ∧ writesOf (MPU6050_init addr b).2.trace = writesOf b.trace
    ∧ MPU6050_init addr2 b = (some PyErr.valueError, b) := by
  have hr1 : List.range 1 = [0] := rfl
  refine ⟨?_, ?_, ?_⟩
  · rcases haddr with h | h <;> subst h <;>
      simp [MPU6050_init, write_read, hr1, hid]
  · rcases haddr with h | h <;> subst h <;>
      simp [MPU6050_init, write_read, hr1, hid, writesOf, List.filter_append]
  · rw [MPU6050_init, if_pos h2]

/-- C7, witness: identity byte 0 on a fresh transport, address `0x68`; bad
address `0x00`. -/
theorem c7_init_rejects_wrong_identity_and_address_witness :
    (bus0.regs REG_WHO_AM_I ≠ 0x68) ∧ ((0x68 : Nat) = 0x68 ∨ (0x68 : Nat) = 0x69)
    ∧ ((0 : Nat) ≠ 0x68 ∧ (0 : Nat) ≠ 0x69)
    ∧ ((MPU6050_init 0x68 bus0).1 = some PyErr.valueError
       ∧ writesOf (MPU6050_init 0x68 bus0).2.trace = writesOf bus0.trace
       ∧ MPU6050_init 0 bus0 = (some PyErr.valueError, bus0)) :=
  ⟨by decide, by decide, by decide,
   c7_init_rejects_wrong_identity_and_address bus0 0x68 0 (by decide) (by decide) (by decide)⟩

/-- C8, counterexample: with identity byte `0x68` construction succeeds, but
the transport records seven writes, not five: each full-scale setter first
writes `0x00` to its config register before writing the shifted code. -/
theorem c8_counterexample_seven_writes :
    (MPU6050_init 0x68 busWho).1 = none
    ∧ (writesOf (MPU6050_init 0x68 busWho).2.trace).length = 7
    ∧ writesOf (MPU6050_init 0x68 busWho).2.trace ≠
        [Transaction.write PWR_MGMT_1 1, Transaction.write ACCEL_CONFIG 0,
         Transaction.write GYRO_CONFIG 0x18, Transaction.write REG_CONFIG 0,
         Transaction.write PWR_MGMT_1 1] := by decide

/-- C8, amended: with identity byte `0x68` construction succeeds and the
transport records exactly seven writes in order — clock source to
`PWR_MGMT_1`, the `ACCEL_CONFIG` clear and full-scale write, the
`GYRO_CONFIG` clear and full-scale write, the DLPF write, and the
sleep-clear write. -/
theorem c8_init_write_sequence :
    (MPU6050_init 0x68 busWho).1 = none
    ∧ writesOf (MPU6050_init 0x68 busWho).2.trace =
        [Transaction.write PWR_MGMT_1 1,
         Transaction.write ACCEL_CONFIG 0x00, Transaction.write ACCEL_CONFIG 0,
         Transaction.write GYRO_CONFIG 0x00, Transaction.write GYRO_CONFIG 0x18,
         Transaction.write REG_CONFIG 0,
         Transaction.write PWR_MGMT_1 1] := by decide

/-- C9: a valid full-scale write leaves the whole config register equal to
the shifted code — in particular the low three bits (the DHPF field of
`ACCEL_CONFIG`) are reset to 0 — whatever the register held before, because
the setter writes `0x00` first and reads that back. -/
theorem c9_fullscale_write_clears_dhpf (b b' : Bus) (v w : Nat)
    (hv : v ∈ [2, 4, 8, 16]) (hw : w ∈ [250, 500, 1000, 2000]) :
    ((set_accel_fullscale b v).2).regs ACCEL_CONFIG = (dictGet accel_fullscale (toString v)) <<< 3
    ∧ ((set_accel_fullscale b v).2).regs ACCEL_CONFIG % 8 = 0
    ∧ ((set_gyro_fullscale b' w).2).regs GYRO_CONFIG = (dictGet gyro_fullscale (toString w)) <<< 3
    ∧ ((set_gyro_fullscale b' w).2).regs GYRO_CONFIG % 8 = 0 := by
  have ha := set_accel_fullscale_regs b v hv ACCEL_CONFIG
  have hg := set_gyro_fullscale_regs b' w hw GYRO_CONFIG
  rw [if_pos rfl] at ha
  rw [if_pos rfl] at hg
  refine ⟨ha, ?_, hg, ?_⟩
  · rw [ha]; fin_cases hv <;> decide
  · rw [hg]; fin_cases hw <;> decide

/-- C9, witness at `v = 4`, `w = 500` over fresh transports. -/
theorem c9_fullscale_write_clears_dhpf_witness :
    (4 ∈ [2, 4, 8, 16]) ∧ (500 ∈ [250, 500, 1000, 2000]) ∧
    (((set_accel_fullscale bus0 4).2).regs ACCEL_CONFIG = (dictGet accel_fullscale (toString 4)) <<< 3
     ∧ ((set_accel_fullscale bus0 4).2).regs ACCEL_CONFIG % 8 = 0
     ∧ ((set_gyro_fullscale bus0 500).2).regs GYRO_CONFIG = (dictGet gyro_fullscale (toString 500)) <<< 3
     ∧ ((set_gyro_fullscale bus0 500).2).regs GYRO_CONFIG % 8 = 0) :=
  ⟨by decide, by decide,
   c9_fullscale_write_clears_dhpf bus0 bus0 4 500 (by decide) (by decide)⟩

/-- C10: whatever byte the transport returns for the config register, the
extracted code `(byte & 0b00011000) >> 3` is one of `{0,1,2,3}`, each of
which matches a table entry, so both getters always return one of the four
range strings and the `-1` branch is unreachable. -/
theorem c10_fullscale_readback_never_unknown :
    (∀ b : Bus, (∃ s, s ∈ ["2", "4", "8", "16"] ∧ (get_accel_fullscale b).1 = PyVal.str s)
       ∧ (get_accel_fullscale b).1 ≠ PyVal.int (-1))
    ∧ (∀ b : Bus, (∃ s, s ∈ ["250", "500", "1000", "2000"] ∧ (get_gyro_fullscale b).1 = PyVal.str s)
       ∧ (get_gyro_fullscale b).1 ≠ PyVal.int (-1)) := by
  refine ⟨fun b => ?_, fun b => ?_⟩
  · obtain ⟨s, hs, h⟩ := accel_readback_str b
    exact ⟨⟨s, hs, h⟩, by rw [h]; simp⟩
  · obtain ⟨s, hs, h⟩ := gyro_readback_str b
    exact ⟨⟨s, hs, h⟩, by rw [h]; simp⟩

end MPU6050
